import Mathlib

/-!
Verification of the trigger-configuration and wire-protocol engine of
terminusgps-notifications, shallowly embedded from the repository source:

* trigger-parameter validators: `terminusgps_notifications/forms/notifications.py`
  (the duplicate forms in `forms/triggers.py` carry the identical `clean` logic
  for the sensor-value form and likewise have no cross-field check elsewhere);
* trigger-kind registry: `TRIGGER_FORM_MAP` and
  `WialonNotificationTriggerParametersFormView.get_form_class`
  (`views/notifications.py`);
* wire encoder and model persistence: `WialonNotification.get_wialon_parameters`,
  `get_text`, `get_actions`, `save` (`models.py`);
* workflow views: `WialonNotificationCreateView.form_valid`,
  `WialonNotificationUpdateView.form_valid`,
  `WialonNotificationDeleteView.form_valid`, and the pre-commit step views
  (`views/notifications.py`).

Numeric form bounds (Django `FloatField` / `DecimalField` values) are embedded
as `ℚ`: the validators only compare them, and on the inputs the claims quantify
over (ordinary ordered numbers) rational comparison agrees with Python float
and Decimal comparison.
-/

namespace TerminusgpsNotifications

/-! ## Sensor-type choices (`constants.WialonUnitSensorType`) -/

/-- The value set of `constants.WialonUnitSensorType.choices`; the empty string
is the `ANY` choice. -/
def WialonUnitSensorType_values : List String :=
  [ "", "mileage", "odometer",
    "engine operation", "alarm trigger", "private mode",
    "real-time motion sensor", "digital",
    "voltage", "weight", "accelerometer", "temperature",
    "temperature coefficient",
    "engine rpm", "engine efficiency", "engine hours", "relative engine hours",
    "impulse fuel consumption", "absolute fuel consumption",
    "instant fuel consumption", "fuel level", "fuel level impulse sensor",
    "battery level",
    "counter", "custom", "driver", "trailer", "tag" ]

/-! ## Cross-field bound validation (`SensorValueTriggerParametersForm.clean`)

Embeds the `clean` method found (with an identical body) at
`forms/notifications.py:718` and `forms/triggers.py:502`.  `cleaned_data.get`
may return `None` for a field that failed its own validation, hence the
`Option` arguments. -/

/-- The field an error is attached to by `Form.add_error`. -/
inductive BoundField where
  | lower_bound
  | upper_bound
deriving DecidableEq, Repr

/-- `SensorValueTriggerParametersForm.clean`: reads `upper_bound` then
`lower_bound` from `cleaned_data`; when both are present, adds an error to
`lower_bound` if `lower_bound > upper_bound`, else adds an error to
`upper_bound` if `upper_bound < lower_bound`. -/
def sensorValue_clean_errors (upper_bound lower_bound : Option ℚ) :
    List BoundField :=
  match upper_bound, lower_bound with
  | some ub, some lb =>
      if lb > ub then [BoundField.lower_bound]
      else if ub < lb then [BoundField.upper_bound]
      else []
  | _, _ => []

/-! ## Per-kind validators (cleaned field values and field-level checks)

Each structure holds the coerced field values of one trigger-parameters form
from `forms/notifications.py`; the `_is_valid` function conjoins Django's
field-level checks (required fields, `min_value`/`max_value` validators,
choice membership) with the form's `clean`-level errors.  Only the
sensor-value form defines `clean`; the other forms have no cross-field
validation. -/

/-- Cleaned data of `SensorValueTriggerParametersForm`
(`forms/notifications.py:659`). -/
structure SensorValueParams where
  lower_bound : ℚ
  upper_bound : ℚ
  merge : Int
  prev_msg_diff : Int
  sensor_name_mask : String
  sensor_type : String
  type : Int
deriving DecidableEq, Repr

/-- Validity of `SensorValueTriggerParametersForm`: field-level checks plus the
cross-field `clean` check. -/
def sensorValue_is_valid (p : SensorValueParams) : Bool :=
  [0, 1].contains p.merge
    && [0, 1].contains p.prev_msg_diff
    && !p.sensor_name_mask.isEmpty
    && WialonUnitSensorType_values.contains p.sensor_type
    && [0, 1].contains p.type
    && (sensorValue_clean_errors (some p.upper_bound) (some p.lower_bound)).isEmpty

/-- Cleaned data of `GeofenceTriggerParametersForm`
(`forms/notifications.py:277`). -/
structure GeofenceParams where
  sensor_type : String
  sensor_name_mask : String
  lower_bound : ℚ
  upper_bound : ℚ
  prev_msg_diff : Int
  geozone_ids : String
  min_speed : Int
  max_speed : Int
  merge : Int
  reversed : Int
  type : Int
  include_lbs : Int
  lo : String
deriving DecidableEq, Repr

/-- Validity of `GeofenceTriggerParametersForm`: the form defines no `clean`
method, so only field-level checks apply; no check relates the two bounds. -/
def geofence_is_valid (p : GeofenceParams) : Bool :=
  WialonUnitSensorType_values.contains p.sensor_type
    && !p.sensor_name_mask.isEmpty
    && [0, 1].contains p.prev_msg_diff
    && !p.geozone_ids.isEmpty
    && (0 ≤ p.min_speed && p.min_speed ≤ 256)
    && (0 ≤ p.max_speed && p.max_speed ≤ 256)
    && [0, 1].contains p.merge
    && [0, 1].contains p.reversed
    && [0, 1].contains p.type
    && [0, 1].contains p.include_lbs
    && ["", "AND", "OR"].contains p.lo

/-- Cleaned data of `AddressTriggerParametersForm`
(`forms/notifications.py:381`). -/
structure AddressParams where
  sensor_type : String
  sensor_name_mask : String
  lower_bound : ℚ
  upper_bound : ℚ
  prev_msg_diff : Int
  merge : Int
  reversed : Int
  radius : Int
  type : Int
  min_speed : Int
  max_speed : Int
  country : String
  region : String
  city : String
  street : String
  house : String
  include_lbs : Int
deriving DecidableEq, Repr

/-- Validity of `AddressTriggerParametersForm`: no `clean` method, so only
field-level checks; the `CharField`s carry `max_length=64`. -/
def address_is_valid (p : AddressParams) : Bool :=
  WialonUnitSensorType_values.contains p.sensor_type
    && !p.sensor_name_mask.isEmpty
    && [0, 1].contains p.prev_msg_diff
    && [0, 1].contains p.merge
    && [0, 1].contains p.reversed
    && [0, 1].contains p.type
    && (0 ≤ p.min_speed && p.min_speed ≤ 256)
    && (0 ≤ p.max_speed && p.max_speed ≤ 256)
    && (!p.country.isEmpty && p.country.length ≤ 64)
    && (!p.region.isEmpty && p.region.length ≤ 64)
    && (!p.city.isEmpty && p.city.length ≤ 64)
    && (!p.street.isEmpty && p.street.length ≤ 64)
    && (!p.house.isEmpty && p.house.length ≤ 64)
    && [0, 1].contains p.include_lbs

/-- Cleaned data of `SpeedTriggerParametersForm`
(`forms/notifications.py:509`). -/
structure SpeedParams where
  lower_bound : ℚ
  max_speed : Int
  merge : Int
  min_speed : Int
  prev_msg_diff : Int
  reversed : Int
  sensor_name_mask : String
  sensor_type : String
  upper_bound : ℚ
deriving DecidableEq, Repr

/-- Validity of `SpeedTriggerParametersForm`: no `clean` method. -/
def speed_is_valid (p : SpeedParams) : Bool :=
  (0 ≤ p.max_speed && p.max_speed ≤ 256)
    && [0, 1].contains p.merge
    && (0 ≤ p.min_speed && p.min_speed ≤ 256)
    && [0, 1].contains p.prev_msg_diff
    && [0, 1].contains p.reversed
    && !p.sensor_name_mask.isEmpty
    && WialonUnitSensorType_values.contains p.sensor_type

/-- Cleaned data of `ParameterTriggerParametersForm` (trigger kind
`msg_param`, `forms/notifications.py:606`). -/
structure MsgParamParams where
  kind : Int
  lower_bound : ℚ
  param : String
  text_mask : String
  type : Int
  upper_bound : ℚ
deriving DecidableEq, Repr

/-- Validity of `ParameterTriggerParametersForm`: no `clean` method. -/
def msg_param_is_valid (p : MsgParamParams) : Bool :=
  [0, 1, 2, 3].contains p.kind
    && !p.param.isEmpty
    && !p.text_mask.isEmpty
    && [0, 1].contains p.type

/-- Cleaned data of `InterpositionTriggerParametersForm`
(`forms/notifications.py:793`). -/
structure InterpositionParams where
  sensor_name_mask : String
  sensor_type : String
  lower_bound : ℚ
  upper_bound : ℚ
  merge : Int
  max_speed : Int
  min_speed : Int
  reversed : Int
  prev_msg_diff : Int
  radius : Int
  type : Int
  unit_guids : String
  include_lbs : Int
  lo : String
deriving DecidableEq, Repr

/-- Validity of `InterpositionTriggerParametersForm`: no `clean` method. -/
def interposition_is_valid (p : InterpositionParams) : Bool :=
  !p.sensor_name_mask.isEmpty
    && WialonUnitSensorType_values.contains p.sensor_type
    && [0, 1].contains p.merge
    && (0 ≤ p.max_speed && p.max_speed ≤ 256)
    && (0 ≤ p.min_speed && p.min_speed ≤ 256)
    && [0, 1].contains p.reversed
    && [0, 1].contains p.prev_msg_diff
    && [0, 1].contains p.type
    && !p.unit_guids.isEmpty
    && [0, 1].contains p.include_lbs
    && ["", "AND", "OR"].contains p.lo

/-! ## URL encoding (`urllib.parse.urlencode` / `quote_plus`)

`WialonNotification.get_text` renders its payload with
`urllib.parse.urlencode`, which applies `quote_plus` to each key and value:
the string is UTF-8 encoded and each byte is kept if alphanumeric or one of
`_ . - ~`, turned into `+` if a space, and otherwise percent-encoded with
uppercase hexadecimal. -/

/-- Uppercase hexadecimal digit for `n < 16`: `0`-`9` then `A`-`F`. -/
def hexDigit (n : Nat) : Char :=
  if n < 10 then Char.ofNat (48 + n) else Char.ofNat (55 + n)

/-- UTF-8 encoding of a code point, as byte values. -/
def utf8EncodeNat (n : Nat) : List Nat :=
  if n < 0x80 then [n]
  else if n < 0x800 then [0xC0 + n / 64, 0x80 + n % 64]
  else if n < 0x10000 then
    [0xE0 + n / 4096, 0x80 + (n / 64) % 64, 0x80 + n % 64]
  else
    [0xF0 + n / 262144, 0x80 + (n / 4096) % 64, 0x80 + (n / 64) % 64,
     0x80 + n % 64]

/-- Bytes `quote_plus` passes through unchanged: ASCII alphanumerics and
`_`, `.`, `-`, `~`. -/
def isUrlSafeByte (b : Nat) : Bool :=
  (0x41 ≤ b && b ≤ 0x5A) || (0x61 ≤ b && b ≤ 0x7A)
    || (0x30 ≤ b && b ≤ 0x39)
    || b == 0x5F || b == 0x2E || b == 0x2D || b == 0x7E

/-- `quote_plus` on a single byte. -/
def quoteByte (b : Nat) : String :=
  if isUrlSafeByte b then (Char.ofNat b).toString
  else if b == 0x20 then "+"
  else "%" ++ (hexDigit (b / 16)).toString ++ (hexDigit (b % 16)).toString

/-- `urllib.parse.quote_plus`. -/
def quote_plus (s : String) : String :=
  ((s.data.flatMap fun c => utf8EncodeNat c.toNat).map quoteByte).foldl
    (· ++ ·) ""

/-- `urllib.parse.urlencode` over an association list. -/
def urlencode (pairs : List (String × String)) : String :=
  String.intercalate "&"
    (pairs.map fun p => quote_plus p.1 ++ "=" ++ quote_plus p.2)

/-! ## The persisted notification (`models.WialonNotification`) -/

/-- One entry of the rendered action list (`get_actions` produces
`push_messages` actions with a callback `url` and a `get` flag). -/
structure WialonAction where
  t : String
  url : String
  get : Nat
deriving DecidableEq, Repr

/-- The persisted fields of `models.WialonNotification` that the encoder and
the workflow views read or write.  Times are embedded as UNIX timestamps
(`Option` mirrors the nullable `DateTimeField`s); the JSON blobs
(`trigger_parameters`, `schedule`, `control_schedule`) are carried opaquely as
association lists, since no embedded code inspects them.  `user_pk` stands for
`customer.user.pk`. -/
structure WialonNotification where
  name : String
  message : String
  method : String
  activation_time : Option Int
  deactivation_time : Option Int
  max_alarms : Nat
  max_message_interval : Nat
  alarm_timeout : Nat
  control_period : Nat
  min_duration_alarm : Nat
  min_duration_prev : Nat
  language : String
  flags : Nat
  timezone : Int
  unit_list : List Nat
  trigger_type : String
  trigger_parameters : List (String × String)
  schedule : List (String × Int)
  control_schedule : List (String × Int)
  actions : List WialonAction
  text : String
  enabled : Bool
  wialon_id : Nat
  resource_id : Nat
  user_pk : Nat
deriving DecidableEq, Repr

namespace WialonNotification

/-- `WialonNotification.get_text` (`models.py:567`): URL-encodes the unit-id
placeholder, the owning user id and the message. -/
def get_text (n : WialonNotification) : String :=
  urlencode
    [ ("unit_id", "%UNIT_ID%"),
      ("user_id", toString n.user_pk),
      ("message", n.message) ]

/-- `WialonNotification.get_actions` (`models.py:577`): a single
`push_messages` action pointing at the method-specific callback URL
(`urljoin` of the API base with `/v3/notify/<method>/`). -/
def get_actions (n : WialonNotification) : List WialonAction :=
  [ { t := "push_messages",
      url := "https://api.terminusgps.com/v3/notify/" ++ n.method ++ "/",
      get := 1 } ]

/-- `WialonNotification.save` (`models.py:551`): re-derives `text` when it is
empty or `"message"` is among `update_fields`, and `actions` when the list is
empty or `"method"` is among `update_fields`, then persists. -/
def model_save (n : WialonNotification) (update_fields : List String) :
    WialonNotification :=
  let n1 :=
    if n.text.isEmpty || update_fields.contains "message" then
      { n with text := get_text n }
    else n
  if n1.actions.isEmpty || update_fields.contains "method" then
    { n1 with actions := get_actions n1 }
  else n1

end WialonNotification

/-! ## Wire protocol encoder (`WialonNotification.get_wialon_parameters`) -/

/-- The parameter dictionary built by `get_wialon_parameters`
(`models.py:615`), one field per wire key. -/
structure WialonParameters where
  itemId : Nat
  id : Nat
  callMode : String
  n : String
  txt : String
  ta : Int
  td : Int
  ma : Nat
  mmtd : Nat
  cdt : Nat
  mast : Nat
  mpst : Nat
  cp : Nat
  fl : Nat
  la : String
  tz : Int
  un : List Nat
  trg_t : String
  trg_p : List (String × String)
  act : List WialonAction
  sch : List (String × Int)
  ctrl_sch : List (String × Int)
deriving DecidableEq, Repr

namespace WialonNotification

/-- `WialonNotification.get_wialon_parameters` (`models.py:615`): `id` is `0`
exactly when `call_mode == "create"` and the stored `wialon_id` otherwise;
absent times encode as `0`; every other field is copied from the model. -/
def get_wialon_parameters (notif : WialonNotification) (call_mode : String) :
    WialonParameters :=
  { itemId := notif.resource_id
    id := if call_mode = "create" then 0 else notif.wialon_id
    callMode := call_mode
    n := notif.name
    txt := notif.text
    ta := match notif.activation_time with
          | some t => t
          | none => 0
    td := match notif.deactivation_time with
          | some t => t
          | none => 0
    ma := notif.max_alarms
    mmtd := notif.max_message_interval
    cdt := notif.alarm_timeout
    mast := notif.min_duration_alarm
    mpst := notif.min_duration_prev
    cp := notif.control_period
    fl := notif.flags
    la := notif.language
    tz := notif.timezone
    un := notif.unit_list
    trg_t := notif.trigger_type
    trg_p := notif.trigger_parameters
    act := notif.actions
    sch := notif.schedule
    ctrl_sch := notif.control_schedule }

end WialonNotification

/-- Erases the `id` field and the call-mode discriminator of a payload, for
comparing the shared remainder across call modes. -/
def strip_payload (p : WialonParameters) : WialonParameters :=
  { p with id := 0, callMode := "" }

/-! ## Trigger type registry (`TRIGGER_FORM_MAP`, `get_form_class`) -/

/-- The 17 trigger-parameters form classes of `forms/notifications.py`. -/
inductive TriggerFormClass where
  | geofence
  | address
  | speed
  | alarm
  | digital
  | msgParam
  | sensorValue
  | outage
  | interposition
  | excess
  | route
  | driver
  | trailer
  | maintenance
  | fuel
  | fuelDrain
  | health
deriving DecidableEq, Repr

/-- `TRIGGER_FORM_MAP` (`forms/notifications.py:1137`), keyed by the values of
`constants.WialonNotificationTriggerType` (note the source typo
`service_interals` for the maintenance kind). -/
def TRIGGER_FORM_MAP : List (String × TriggerFormClass) :=
  [ ("geozone", TriggerFormClass.geofence),
    ("address", TriggerFormClass.address),
    ("speed", TriggerFormClass.speed),
    ("alarm", TriggerFormClass.alarm),
    ("digital_input", TriggerFormClass.digital),
    ("msg_param", TriggerFormClass.msgParam),
    ("sensor_value", TriggerFormClass.sensorValue),
    ("outage", TriggerFormClass.outage),
    ("interposition", TriggerFormClass.interposition),
    ("msgs_counter", TriggerFormClass.excess),
    ("route_control", TriggerFormClass.route),
    ("driver", TriggerFormClass.driver),
    ("trailer", TriggerFormClass.trailer),
    ("service_interals", TriggerFormClass.maintenance),
    ("fuel_filling", TriggerFormClass.fuel),
    ("fuel_theft", TriggerFormClass.fuelDrain),
    ("health_check", TriggerFormClass.health) ]

/-- The value set of `constants.WialonNotificationTriggerType`. -/
def WialonNotificationTriggerType_values : List String :=
  TRIGGER_FORM_MAP.map Prod.fst

/-- `WialonNotificationTriggerParametersFormView.get_form_class`
(`views/notifications.py:83`): a plain `dict.get` on `TRIGGER_FORM_MAP` with
the default `None` — an unknown kind yields no form class rather than an
error. -/
def get_form_class (trigger_type : String) : Option TriggerFormClass :=
  TRIGGER_FORM_MAP.lookup trigger_type

/-! ## Remote calls and the workflow views (`views/notifications.py`)

The remote Wialon API is modelled by the trace of calls a handler issues and
by an injected result for the single notification-mutation call a handler can
make.  `searchItems` covers the read-only `core_search_items` lookups;
`updateNotification` covers `resource/update_notification`, the only remote
notification-mutation call in the module (issued via
`WialonNotification.update_in_wialon` with a call mode). -/

/-- A remote Wialon API call. -/
inductive RemoteCall where
  | searchItems (itemsType : String)
  | updateNotification (callMode : String)
deriving DecidableEq, Repr

/-- Whether a remote call mutates notification state (create/update/delete via
`resource/update_notification`). -/
def isMutationCall : RemoteCall → Bool
  | RemoteCall.updateNotification _ => true
  | RemoteCall.searchItems _ => false

/-- Result of the remote `resource/update_notification` round-trip: `ok`
carries `api_response[0]`, the remote-assigned identifier (meaningful for
`create`); `apiError` is a raised `WialonAPIError`. -/
inductive WialonRemoteResult where
  | ok (newId : Nat)
  | apiError (msg : String)
deriving DecidableEq, Repr

/-- Outcome of a pre-commit workflow step handler: where it redirects and the
remote calls it issued. -/
structure StepResult where
  redirect_to : String
  query : List (String × String)
  remote_calls : List RemoteCall
deriving DecidableEq, Repr

/-- `WialonNotificationTriggerFormView.form_valid`
(`views/notifications.py:54`): redirects to the creation form carrying the
validated trigger kind, parameters, resource id and unit list; makes no
remote call. -/
def triggerFormView_form_valid (t p resource_id unit_list : String) :
    StepResult :=
  { redirect_to := "terminusgps_notifications:create notifications"
    query :=
      [ ("trigger_type", t), ("trigger_parameters", p),
        ("resource_id", resource_id), ("unit_list", unit_list) ]
    remote_calls := [] }

/-- `WialonNotificationTriggerParametersFormView.form_valid`
(`views/notifications.py:90`): redirects to the parameters-success page with
the cleaned parameters serialized in the query; makes no remote call. -/
def triggerParametersFormView_form_valid (p : String) : StepResult :=
  { redirect_to := "terminusgps_notifications:trigger parameters success"
    query := [("p", p)]
    remote_calls := [] }

/-- `WialonNotificationUnitSelectFormView.form_valid`
(`views/notifications.py:173`): redirects to the trigger form carrying the
selected resource id and unit list; makes no remote call. -/
def unitSelectFormView_form_valid (resource_id unit_list : String) :
    StepResult :=
  { redirect_to := "terminusgps_notifications:triggers form"
    query := [("resource_id", resource_id), ("unit_list", unit_list)]
    remote_calls := [] }

/-- The remote calls `WialonNotificationUnitSelectFormView.get_form`
(`views/notifications.py:147`) issues while building the form: when the
customer and token exist it searches the resource directory and the unit
directory; both are read-only `core_search_items` lookups. -/
def unitSelectFormView_get_form_calls
    (has_customer has_token : Bool) (items_type : String) : List RemoteCall :=
  if has_customer && has_token then
    [RemoteCall.searchItems "avl_resource", RemoteCall.searchItems items_type]
  else []

/-! ## Final-commit and mutation views -/

/-- Outcome of `WialonNotificationCreateView.form_valid`: the persisted row
(if any), the non-field form errors, and whether the success redirect was
returned. -/
structure CreateViewOutcome where
  persisted : Option WialonNotification
  form_errors : List String
  success_redirect : Bool
deriving DecidableEq, Repr

/-- `WialonNotificationCreateView.form_valid` (`views/notifications.py:232`):
inside an atomic transaction, builds the unsaved instance, renders `text` and
`actions`, issues the remote `create`, and only on success stores
`api_response[0]` as `wialon_id` and saves the row.  A `WialonAPIError` (or a
missing token/customer) lands in the `except` branch: a non-field error is
added to the form and no row is saved. -/
def createView_form_valid (notif : WialonNotification)
    (has_customer has_token : Bool) (remote : WialonRemoteResult) :
    CreateViewOutcome :=
  if !has_token then
    { persisted := none
      form_errors := ["Invalid/non-existent Wialon API token."]
      success_redirect := false }
  else if !has_customer then
    { persisted := none
      form_errors := ["Invalid/non-existent customer."]
      success_redirect := false }
  else
    let prepared :=
      { notif with
        text := WialonNotification.get_text notif
        actions := WialonNotification.get_actions notif }
    match remote with
    | WialonRemoteResult.apiError msg =>
        { persisted := none
          form_errors := [msg]
          success_redirect := false }
    | WialonRemoteResult.ok newId =>
        { persisted :=
            some (WialonNotification.model_save
              { prepared with wialon_id := newId } [])
          form_errors := []
          success_redirect := true }

/-- Outcome of `WialonNotificationUpdateView.form_valid`: the row as persisted
in the database, the payload sent to the remote update call (if one was
attempted), and how the response ended. -/
structure UpdateViewOutcome where
  persisted : WialonNotification
  remote_payload : Option WialonParameters
  form_error : Bool
  redirected : Bool
deriving DecidableEq, Repr

/-- `WialonNotificationUpdateView.form_valid` (`views/notifications.py:318`):
`form.save(commit=True)` persists the submitted values first — the model
`save` runs without `update_fields`.  Then, only when a token exists and the
form reports changed data, `actions`/`text` are re-derived in memory (not
saved again) and the remote `update` is issued; a failure adds a form error
but the earlier local save stands. -/
def updateView_form_valid (inst : WialonNotification)
    (changed_data : List String) (has_token : Bool)
    (remote : WialonRemoteResult) : UpdateViewOutcome :=
  let saved := WialonNotification.model_save inst []
  if has_token && !changed_data.isEmpty then
    let n1 :=
      if changed_data.contains "method" then
        { saved with actions := WialonNotification.get_actions saved }
      else saved
    let n2 :=
      if changed_data.contains "message" then
        { n1 with text := WialonNotification.get_text n1 }
      else n1
    match remote with
    | WialonRemoteResult.apiError _ =>
        { persisted := saved
          remote_payload :=
            some (WialonNotification.get_wialon_parameters n2 "update")
          form_error := true
          redirected := false }
    | WialonRemoteResult.ok _ =>
        { persisted := saved
          remote_payload :=
            some (WialonNotification.get_wialon_parameters n2 "update")
          form_error := false
          redirected := true }
  else
    { persisted := saved
      remote_payload := none
      form_error := false
      redirected := true }

/-- Outcome of `WialonNotificationDeleteView.form_valid`: the database row
afterwards (`none` when deleted) and whether the 406 error response was
returned. -/
structure DeleteViewOutcome where
  db_record : Option WialonNotification
  status406 : Bool
deriving DecidableEq, Repr

/-- `WialonNotificationDeleteView.form_valid` (`views/notifications.py:360`):
issues the remote `delete` first; only on success does `super().form_valid`
delete the local row.  A missing token or a `WialonAPIError` returns status
406 with the local row retained. -/
def deleteView_form_valid (record : WialonNotification) (has_token : Bool)
    (remote : WialonRemoteResult) : DeleteViewOutcome :=
  if !has_token then
    { db_record := some record, status406 := true }
  else
    match remote with
    | WialonRemoteResult.apiError _ =>
        { db_record := some record, status406 := true }
    | WialonRemoteResult.ok _ =>
        { db_record := none, status406 := false }

/-! ## Enable/disable (modelled from the spec) -/

/-- Modelled from the spec: no enable or disable operation exists under the
repository source — `models.py:527` declares only the `enabled` flag
(`enabled = models.BooleanField(default=True)`).  Spec 4.4: "enable/disable:
idempotent — a call that would not change the enabled flag is a no-op
(checked before calling remote, to avoid a redundant remote round-trip)."
The flag is checked first; only a state-changing call flips it and issues the
remote round-trip. -/
def enable_notification (n : WialonNotification) :
    WialonNotification × List RemoteCall :=
  if n.enabled then (n, [])
  else ({ n with enabled := true }, [RemoteCall.updateNotification "update"])

/-- Modelled from the spec: counterpart of `enable_notification` for
disabling; see that definition for the missing-code note. -/
def disable_notification (n : WialonNotification) :
    WialonNotification × List RemoteCall :=
  if !n.enabled then (n, [])
  else ({ n with enabled := false }, [RemoteCall.updateNotification "update"])

/-! ## Concrete inputs used by witnesses and counterexamples -/

/-- A sensor-value form input with the given bounds and every other field
individually valid (the form defaults). -/
def sensorValueExample (lb ub : ℚ) : SensorValueParams :=
  { lower_bound := lb, upper_bound := ub, merge := 0, prev_msg_diff := 0,
    sensor_name_mask := "*", sensor_type := "", type := 0 }

/-- A geofence form input with the given bounds and every other field
individually valid. -/
def geofenceExample (lb ub : ℚ) : GeofenceParams :=
  { sensor_type := "", sensor_name_mask := "*", lower_bound := lb,
    upper_bound := ub, prev_msg_diff := 0, geozone_ids := "1,2",
    min_speed := 0, max_speed := 256, merge := 0, reversed := 0, type := 0,
    include_lbs := 0, lo := "" }

/-- An address form input with the given bounds and every other field
individually valid. -/
def addressExample (lb ub : ℚ) : AddressParams :=
  { sensor_type := "", sensor_name_mask := "*", lower_bound := lb,
    upper_bound := ub, prev_msg_diff := 0, merge := 0, reversed := 0,
    radius := 500, type := 0, min_speed := 0, max_speed := 256,
    country := "US", region := "TX", city := "Houston", street := "Main",
    house := "1", include_lbs := 0 }

/-- A speed form input with the given bounds and every other field
individually valid. -/
def speedExample (lb ub : ℚ) : SpeedParams :=
  { lower_bound := lb, max_speed := 256, merge := 0, min_speed := 0,
    prev_msg_diff := 0, reversed := 0, sensor_name_mask := "*",
    sensor_type := "", upper_bound := ub }

/-- A message-parameter form input with the given bounds and every other
field individually valid. -/
def msgParamExample (lb ub : ℚ) : MsgParamParams :=
  { kind := 0, lower_bound := lb, param := "io_15", text_mask := "*",
    type := 0, upper_bound := ub }

/-- An interposition form input with the given bounds and every other field
individually valid. -/
def interpositionExample (lb ub : ℚ) : InterpositionParams :=
  { sensor_name_mask := "*", sensor_type := "", lower_bound := lb,
    upper_bound := ub, merge := 0, max_speed := 256, min_speed := 0,
    reversed := 0, prev_msg_diff := 0, radius := 500, type := 0,
    unit_guids := "1001,1002", include_lbs := 0, lo := "" }

/-- A concrete notification used to instantiate witnesses: an enabled
sensor-value notification before any rendering. -/
def baseNotification : WialonNotification :=
  { name := "Test Notification"
    message := "hello"
    method := "sms"
    activation_time := none
    deactivation_time := none
    max_alarms := 0
    max_message_interval := 3600
    alarm_timeout := 0
    control_period := 3600
    min_duration_alarm := 0
    min_duration_prev := 0
    language := "en"
    flags := 0
    timezone := 0
    unit_list := [1001, 1002]
    trigger_type := "sensor_value"
    trigger_parameters := [("sensor_name_mask", "*IGN*")]
    schedule :=
      [("f1", 0), ("f2", 0), ("t1", 0), ("t2", 0), ("m", 0), ("w", 0),
       ("y", 0)]
    control_schedule :=
      [("f1", 0), ("f2", 0), ("t1", 0), ("t2", 0), ("m", 0), ("w", 0),
       ("y", 0)]
    actions := []
    text := ""
    enabled := true
    wialon_id := 0
    resource_id := 555
    user_pk := 7 }

/-- `baseNotification` with `enabled = False`. -/
def disabledNotification : WialonNotification :=
  { baseNotification with enabled := false }

/-- The database row of a committed notification before an update: message
`hello`, with `text` and `actions` rendered (as creation leaves them). -/
def preUpdateRecord : WialonNotification :=
  WialonNotification.model_save { baseNotification with wialon_id := 42 } []

/-- The update form instance: `preUpdateRecord` with the submitted new
message applied (Django binds cleaned data onto the loaded instance before
`form.save`). -/
def submittedInstance : WialonNotification :=
  { preUpdateRecord with message := "goodbye" }

/-! ## Helper lemmas -/

/-- `model_save` never touches `name`, `message` or `method`. -/
theorem model_save_preserves_core (n : WialonNotification)
    (uf : List String) :
    (WialonNotification.model_save n uf).name = n.name
  ∧ (WialonNotification.model_save n uf).message = n.message
  ∧ (WialonNotification.model_save n uf).method = n.method := by
  unfold WialonNotification.model_save
  split <;> (dsimp only; split <;> exact ⟨rfl, rfl, rfl⟩)

/-- An association-list lookup succeeds exactly on the keys of the list. -/
theorem lookup_isSome_eq_keys_contains {α : Type} (l : List (String × α))
    (a : String) :
    (l.lookup a).isSome = (l.map Prod.fst).contains a := by
  induction l with
  | nil => rfl
  | cons hd tl ih =>
      by_cases h : a = hd.1
      · have hb : (a == hd.1) = true := beq_iff_eq.mpr h
        simp [List.lookup, hb]
      · have hb : (a == hd.1) = false := beq_eq_false_iff_ne.mpr h
        simp [List.lookup, hb, ih]

/-! ## Claims -/

/-- Claim C1, counterexample: the geofence trigger-parameters validator
accepts an input whose bounds are out of order (`lower_bound = 5 >
1 = upper_bound`, all other fields valid) — the form defines no `clean`
method, so validation succeeds, refuting the claim that every bound-pair
validator rejects such input. -/
theorem c1_counterexample :
    geofence_is_valid (geofenceExample 5 1) = true
  ∧ (geofenceExample 5 1).lower_bound > (geofenceExample 5 1).upper_bound := by
  constructor
  · decide
  · show (5 : ℚ) > 1
    norm_num

/-- Claim C1, amended: among the bound-pair validators only the sensor-value
form carries the cross-field bound check — it rejects every input with
`lower_bound > upper_bound` — while the geofence, address, speed,
message-parameter and interposition validators have no such check and accept
otherwise-valid inputs with out-of-order bounds. -/
theorem c1_amended_only_sensor_checks_bounds :
    (∀ p : SensorValueParams, p.lower_bound > p.upper_bound →
        sensorValue_is_valid p = false)
  ∧ (∀ lb ub : ℚ, lb > ub →
        geofence_is_valid (geofenceExample lb ub) = true
      ∧ address_is_valid (addressExample lb ub) = true
      ∧ speed_is_valid (speedExample lb ub) = true
      ∧ msg_param_is_valid (msgParamExample lb ub) = true
      ∧ interposition_is_valid (interpositionExample lb ub) = true) := by
  constructor
  · intro p h
    simp [sensorValue_is_valid, sensorValue_clean_errors, h]
  · intro lb ub _
    refine ⟨rfl, rfl, rfl, rfl, rfl⟩

/-- Claim C1, witness: at `lower_bound = 5 > 1 = upper_bound` the sensor-value
form is invalid and the geofence form is valid. -/
theorem c1_witness :
    sensorValue_is_valid (sensorValueExample 5 1) = false
  ∧ geofence_is_valid (geofenceExample 5 1) = true :=
  ⟨c1_amended_only_sensor_checks_bounds.1 (sensorValueExample 5 1)
      (by norm_num [sensorValueExample]),
   (c1_amended_only_sensor_checks_bounds.2 5 1 (by norm_num)).1⟩

/-- Claim C2, counterexample: with `upper_bound = 1 < 5 = lower_bound`, the
sensor-value `clean` attaches its error to `lower_bound`, not to
`upper_bound` as the claim requires for this direction — the
`elif upper_bound < lower_bound` branch is never the one taken. -/
theorem c2_counterexample :
    sensorValue_clean_errors (some 1) (some 5) = [BoundField.lower_bound]
  ∧ sensorValue_clean_errors (some 1) (some 5) ≠ [BoundField.upper_bound] := by
  constructor <;> decide

/-- Claim C2, amended: whenever both bounds are present and out of order the
`clean` method adds exactly one error, always attached to `lower_bound`; the
`elif upper_bound < lower_bound` branch is unreachable (its guard is
equivalent to the first guard), so no input ever attaches the error to
`upper_bound`. -/
theorem c2_amended_error_always_on_lower :
    (∀ ub lb : ℚ, ub < lb →
        sensorValue_clean_errors (some ub) (some lb)
          = [BoundField.lower_bound])
  ∧ (∀ u l : Option ℚ,
        BoundField.upper_bound ∉ sensorValue_clean_errors u l) := by
  constructor
  · intro ub lb h
    simp [sensorValue_clean_errors, h]
  · intro u l
    cases u with
    | none => simp [sensorValue_clean_errors]
    | some ub =>
        cases l with
        | none => simp [sensorValue_clean_errors]
        | some lb =>
            by_cases h : lb > ub
            · simp [sensorValue_clean_errors, h]
            · have h2 : ¬ ub < lb := h
              simp [sensorValue_clean_errors, h, h2]

/-- Claim C2, witness: at `upper_bound = 1`, `lower_bound = 5` the single
error is attached to `lower_bound`. -/
theorem c2_witness :
    sensorValue_clean_errors (some 1) (some 5) = [BoundField.lower_bound] :=
  c2_amended_error_always_on_lower.1 1 5 (by norm_num)

/-- Claim C3: when the remote create call raises a `WialonAPIError` during the
final commit, no local row is persisted, a non-field error is surfaced on the
form, and the success redirect is not returned. -/
theorem c3_remote_create_failure_leaves_no_row :
    ∀ (notif : WialonNotification) (hasCustomer hasToken : Bool)
      (msg : String),
      (createView_form_valid notif hasCustomer hasToken
          (WialonRemoteResult.apiError msg)).persisted = none
    ∧ (createView_form_valid notif hasCustomer hasToken
          (WialonRemoteResult.apiError msg)).form_errors ≠ []
    ∧ (createView_form_valid notif hasCustomer hasToken
          (WialonRemoteResult.apiError msg)).success_redirect = false := by
  intro notif hc ht msg
  cases ht <;> cases hc <;> simp [createView_form_valid]

/-- Claim C4, counterexample: the update view persists the submitted values
before the remote call, so after a failed remote update the local record
holds the new message `goodbye`, not its pre-call value `hello` — refuting
"every persisted field still holds its pre-call value". -/
theorem c4_counterexample :
    (updateView_form_valid submittedInstance ["message"] true
        (WialonRemoteResult.apiError "remote failure")).persisted.message
      = "goodbye"
  ∧ preUpdateRecord.message = "hello" := by
  constructor <;> rfl

/-- Claim C4, amended: a failed remote delete leaves the local record in
place (with a 406 response); a failed remote update leaves the local record
holding the newly submitted field values — `form.save(commit=True)` runs
before the remote call and is not rolled back — and the form error is raised
exactly when a remote update was attempted. -/
theorem c4_amended_update_persists_before_remote :
    ∀ (record inst : WialonNotification) (changed : List String)
      (tok tok2 : Bool) (msg : String),
      (deleteView_form_valid record tok2
          (WialonRemoteResult.apiError msg)).db_record = some record
    ∧ (deleteView_form_valid record tok2
          (WialonRemoteResult.apiError msg)).status406 = true
    ∧ (updateView_form_valid inst changed tok
          (WialonRemoteResult.apiError msg)).persisted.name = inst.name
    ∧ (updateView_form_valid inst changed tok
          (WialonRemoteResult.apiError msg)).persisted.message = inst.message
    ∧ (updateView_form_valid inst changed tok
          (WialonRemoteResult.apiError msg)).persisted.method = inst.method
    ∧ (updateView_form_valid inst changed tok
          (WialonRemoteResult.apiError msg)).form_error
        = (tok && !changed.isEmpty) := by
  intro record inst changed tok tok2 msg
  obtain ⟨hn, hm, hme⟩ := model_save_preserves_core inst []
  refine ⟨?_, ?_, ?_, ?_, ?_, ?_⟩
  · cases tok2 <;> simp [deleteView_form_valid]
  · cases tok2 <;> simp [deleteView_form_valid]
  all_goals
    by_cases h : tok && !changed.isEmpty <;>
      simp [updateView_form_valid, h, hn, hm, hme]

/-- Claim C5: for every notification state the encoded `id` is exactly `0`
in `create` mode and the stored `wialon_id` in `update` and `delete` modes,
and apart from `id` and the call-mode discriminator the three payloads are
identical. -/
theorem c5_create_sentinel_and_shared_payload :
    ∀ n : WialonNotification,
      (WialonNotification.get_wialon_parameters n "create").id = 0
    ∧ (WialonNotification.get_wialon_parameters n "update").id = n.wialon_id
    ∧ (WialonNotification.get_wialon_parameters n "delete").id = n.wialon_id
    ∧ strip_payload (WialonNotification.get_wialon_parameters n "create")
        = strip_payload (WialonNotification.get_wialon_parameters n "update")
    ∧ strip_payload (WialonNotification.get_wialon_parameters n "update")
        = strip_payload (WialonNotification.get_wialon_parameters n "delete")
    := by
  intro n
  refine ⟨?_, ?_, ?_, ?_, ?_⟩ <;>
    simp [WialonNotification.get_wialon_parameters, strip_payload]

/-- Claim C6, counterexample: for the out-of-enumeration kind `bogus` the
dispatch (`TRIGGER_FORM_MAP.get`) yields `None` — the default of a plain
dictionary lookup — rather than failing with an `UnknownTriggerKind` error;
no such error exists anywhere in the code. -/
theorem c6_counterexample :
    get_form_class "bogus" = none
  ∧ WialonNotificationTriggerType_values.contains "bogus" = false := by
  constructor <;> decide

/-- Claim C6, amended: the dispatch returns no form class (`None`, the
`dict.get` default — the request later fails with a `TypeError` when the
missing class is instantiated, not with a dedicated `UnknownTriggerKind`
error) for every string outside the closed 17-value enumeration, and returns
the kind's own form class for every string inside it. -/
theorem c6_amended_registry_lookup :
    (∀ t : String,
        (get_form_class t).isSome
          = WialonNotificationTriggerType_values.contains t)
  ∧ TRIGGER_FORM_MAP.all
      (fun pair => get_form_class pair.1 == some pair.2) = true := by
  constructor
  · intro t
    simpa [WialonNotificationTriggerType_values, get_form_class] using
      lookup_isSome_eq_keys_contains TRIGGER_FORM_MAP t
  · decide

/-- Claim C7: none of the pre-commit workflow steps (unit selection,
trigger-kind selection, parameter capture) issues a remote
notification-mutation call — their combined remote traces contain only
read-only directory searches, never a create/update/delete
(`resource/update_notification`) call. -/
theorem c7_no_mutation_before_commit :
    ∀ (t p rid ul pp rid2 ul2 itemsType : String)
      (hasCustomer hasToken : Bool),
      ((triggerFormView_form_valid t p rid ul).remote_calls
        ++ (triggerParametersFormView_form_valid pp).remote_calls
        ++ (unitSelectFormView_form_valid rid2 ul2).remote_calls
        ++ unitSelectFormView_get_form_calls hasCustomer hasToken
            itemsType).filter isMutationCall = [] := by
  intro t p rid ul pp rid2 ul2 itemsType hc ht
  cases hc <;> cases ht <;>
    simp [triggerFormView_form_valid, triggerParametersFormView_form_valid,
      unitSelectFormView_form_valid, unitSelectFormView_get_form_calls,
      isMutationCall]

/-- Claim C8: evaluated at the failing input — a committed notification with
message `hello` updated to message `goodbye` — the update flow persists the
stale rendered text (still derived from `hello`) while the remote update
payload carries the freshly derived text; the persisted rendered text is not
re-derived from the new message as the claim (and the model `save`
docstring) require. -/
theorem c8_code_evaluation :
    (updateView_form_valid submittedInstance ["message"] true
        (WialonRemoteResult.ok 0)).persisted.text = preUpdateRecord.text
  ∧ preUpdateRecord.text ≠ WialonNotification.get_text submittedInstance
  ∧ (updateView_form_valid submittedInstance ["message"] true
        (WialonRemoteResult.ok 0)).remote_payload.map WialonParameters.txt
      = some (WialonNotification.get_text submittedInstance) := by
  refine ⟨rfl, by decide, rfl⟩

/-- Claim C9 (operations modelled from the spec; only the `enabled` flag
exists in the source): enable and disable are idempotent — applied to a
notification already in the requested state they change nothing and issue
zero remote calls. -/
theorem c9_enable_disable_idempotent :
    ∀ n : WialonNotification,
      (n.enabled = true → enable_notification n = (n, []))
    ∧ (n.enabled = false → disable_notification n = (n, [])) := by
  intro n
  constructor
  · intro h
    simp [enable_notification, h]
  · intro h
    simp [disable_notification, h]

/-- Claim C9, witness: enabling the already-enabled `baseNotification` and
disabling the already-disabled `disabledNotification` are both no-ops with
empty remote traces. -/
theorem c9_witness :
    enable_notification baseNotification = (baseNotification, [])
  ∧ disable_notification disabledNotification
      = (disabledNotification, []) :=
  ⟨(c9_enable_disable_idempotent baseNotification).1 rfl,
   (c9_enable_disable_idempotent disabledNotification).2 rfl⟩

/-- Claim C10: for every call-mode string other than `create` — including
strings outside the create/update/delete set — the encoder returns the stored
`wialon_id` as `id` and passes the call-mode string through unchanged as
`callMode`. -/
theorem c10_callmode_passthrough :
    ∀ (n : WialonNotification) (call_mode : String), call_mode ≠ "create" →
      (WialonNotification.get_wialon_parameters n call_mode).id = n.wialon_id
    ∧ (WialonNotification.get_wialon_parameters n call_mode).callMode
        = call_mode := by
  intro n cm h
  simp [WialonNotification.get_wialon_parameters, h]

/-- Claim C10, witness: at the out-of-set call mode `banana` the payload
carries the stored `wialon_id` and the string `banana` unchanged. -/
theorem c10_witness :
    (WialonNotification.get_wialon_parameters baseNotification "banana").id
      = baseNotification.wialon_id
  ∧ (WialonNotification.get_wialon_parameters baseNotification
        "banana").callMode = "banana" :=
  c10_callmode_passthrough baseNotification "banana" (by decide)

end TerminusgpsNotifications
